import Mathlib

/-!
Shallow embedding of the egui/GLFW multi-draw-indirect UI renderer
(`src/ui.rs`): the texture-atlas pool (`TexturePool`), the per-frame
geometry builder (`UI.upload_to_buffers`) and the texture-update
pipeline (`UI.update_texture`).

Modelling conventions:
* `usize` values are `Nat`, `i32` fields are `Int`.  The `as i32` /
  `as u32` casts the code applies to buffer lengths and texture
  dimensions are modelled as exact coercions: GL texture dimensions and
  per-frame UI buffer lengths are far below `2^31`, where the casts are
  the identity.  The one cast whose partiality is visible at sane sizes
  -- `i32::ilog2`, which panics on a non-positive argument -- is
  modelled with `Option`.
* `f32` window/clip coordinates are modelled as `ℚ`; `round`, `clamp`,
  subtraction and the `width/max_width` divisions are exact at the
  magnitudes involved.
* Panics (`assert!`, `ilog2` of a non-positive number) are `none`;
  `println!` diagnostics are collected in a `Warning` list; writes into
  the GPU texture array (an external GL wrapper object) are recorded in
  a `TexWrite` journal.
-/

namespace EguiMdi

/-- egui texture identifier: toolkit-managed or user-supplied, keyed by
a 64-bit id (`TextureId::Managed` / `TextureId::User`). -/
inductive TextureId where
  | managed : Nat → TextureId
  | user : Nat → TextureId
deriving DecidableEq

/-- Atlas layer record (`struct TextureInfo`): assigned layer plus the
true pixel size of the image, all `i32` in the source. -/
structure TextureInfo where
  layer : Int
  width : Int
  height : Int
deriving DecidableEq

/-- `HashMap::insert` semantics on an association list: overwrite the
entry for `k` if present, otherwise append a new entry. -/
def alInsert (k : TextureId) (v : TextureInfo) :
    List (TextureId × TextureInfo) → List (TextureId × TextureInfo)
  | [] => [(k, v)]
  | e :: rest => if e.1 = k then (k, v) :: rest else e :: alInsert k v rest

/-- `HashMap::get` semantics on an association list. -/
def alLookup (k : TextureId) : List (TextureId × TextureInfo) → Option TextureInfo
  | [] => none
  | e :: rest => if e.1 = k then some e.2 else alLookup k rest

/-- `struct TexturePool` (the atlas): handle-to-record map, fixed layer
dimensions, layer capacity `max_depth`, and the `next_layer` counter.
The GPU-side `TextureArray` member is an external GL wrapper and is not
part of the pure state. -/
structure TexturePool where
  infos : List (TextureId × TextureInfo)
  max_width : Nat
  max_height : Nat
  max_depth : Int
  next_layer : Int
deriving DecidableEq

/-- Floor of log2, by structural recursion on a fuel argument so that
the kernel can evaluate it on concrete inputs. -/
def log2fuel : Nat → Nat → Nat
  | 0, _ => 0
  | fuel + 1, n => if 2 ≤ n then log2fuel fuel (n / 2) + 1 else 0

/-- Floor of log2 (`n.ilog2()` for positive `n`): fuel `n` suffices. -/
def floorLog2 (n : Nat) : Nat := log2fuel n n

/-- Rust `i32::ilog2`: floor of log2, panicking (`none`) when the
argument is zero or negative. -/
def ilog2 (n : Int) : Option Nat := if n ≤ 0 then none else some (floorLog2 n.toNat)

/-- `TexturePool::new`: derives the layer capacity from the atlas
dimensions as `max(max_width, max_height).ilog2() + 1` (the
glTexStorage3D mip-count equation); `none` models the `ilog2` panic on
a zero-sized atlas. -/
def TexturePool.new (maxW maxH : Nat) : Option TexturePool :=
  match ilog2 (max (maxW : Int) (maxH : Int)) with
  | none => none
  | some l =>
    some { infos := [], max_width := maxW, max_height := maxH,
           max_depth := (l : Int) + 1, next_layer := 0 }

/-- egui `SizedTexture`: the handle returned by `TexturePool::insert`
together with the image size it was created with. -/
structure SizedTexture where
  id : TextureId
  w : Nat
  h : Nat
deriving DecidableEq

/-- `TexturePool::insert`: asserts the image fits a layer and that a
free layer exists (`none` = fatal `assert!`), then binds the fresh
handle `TextureId::User(next_layer)` to a new record and increments
`next_layer`.  The pixel upload goes to the external GL array and does
not affect the pure state. -/
def TexturePool.insert (p : TexturePool) (w h : Nat) (pixels : List Nat) :
    Option (TexturePool × SizedTexture) :=
  if w ≤ p.max_width ∧ h ≤ p.max_height then
    if p.next_layer < p.max_depth then
      let id := TextureId.user p.next_layer.toNat
      some ({ p with
                infos := alInsert id ⟨p.next_layer, (w : Int), (h : Int)⟩ p.infos,
                next_layer := p.next_layer + 1 },
            ⟨id, w, h⟩)
    else none
  else none

/-- `TexturePool::fetch_or_add`: `entry(id).or_insert_with(..)` -- if
the handle is present return its record and leave the pool unchanged;
otherwise create a record on layer `next_layer` and increment the
counter.  Note: unlike `insert`, the source performs no capacity
check on this path. -/
def TexturePool.fetch_or_add (p : TexturePool) (id : TextureId) (w h : Nat) :
    TexturePool × TextureInfo :=
  match alLookup id p.infos with
  | some info => (p, info)
  | none =>
    let info : TextureInfo := ⟨p.next_layer, (w : Int), (h : Int)⟩
    ({ p with infos := alInsert id info p.infos, next_layer := p.next_layer + 1 },
     info)

/-- `TexturePool::fetch`: plain map lookup, total. -/
def TexturePool.fetch (p : TexturePool) (id : TextureId) : Option TextureInfo :=
  alLookup id p.infos

/-- egui vertex (2D position, UV, RGBA color); the geometry builder
never inspects vertices, it only concatenates them. -/
structure Vertex where
  px : ℚ
  py : ℚ
  u : ℚ
  v : ℚ
  color : Nat
deriving DecidableEq

/-- egui mesh: vertex list, index list and the texture handle. -/
structure Mesh where
  vertices : List Vertex
  indices : List Nat
  texture_id : TextureId
deriving DecidableEq

/-- egui clip rectangle, in top-left-origin screen coordinates. -/
structure Rect where
  minX : ℚ
  minY : ℚ
  maxX : ℚ
  maxY : ℚ
deriving DecidableEq

/-- egui `Primitive`: a triangle mesh or a paint callback (the renderer
only handles meshes and silently skips callbacks). -/
inductive Primitive where
  | mesh : Mesh → Primitive
  | callback : Primitive
deriving DecidableEq

/-- egui `ClippedPrimitive`: a primitive with its clip rectangle. -/
structure ClippedPrimitive where
  clip_rect : Rect
  primitive : Primitive
deriving DecidableEq

/-- The two non-fatal `println!` diagnostics of the renderer. -/
inductive Warning where
  | unknownTexture : TextureId → Warning
  | lenMismatch : Nat → Nat → Nat → Warning
deriving DecidableEq

/-- `struct DrawElementsCmd`: one indirect-draw record per mesh. -/
structure DrawElementsCmd where
  count : Nat
  instance_count : Nat
  first_index : Nat
  base_vertex : Nat
  texture_layer : Int
  uv_scale_x : ℚ
  uv_scale_y : ℚ
  scissor_x : ℚ
  scissor_y : ℚ
  scissor_w : ℚ
  scissor_h : ℚ
deriving DecidableEq

/-- Rust `f32::round`: nearest integer, rounding half away from zero;
exact over ℚ. -/
def fround (q : ℚ) : ℚ :=
  if q < 0 then -((⌊-q + 1 / 2⌋ : Int) : ℚ) else ((⌊q + 1 / 2⌋ : Int) : ℚ)

/-- Rust `f32::clamp` (which asserts `lo ≤ hi`; every use below
satisfies that under the stated framebuffer hypotheses). -/
def fclamp (x lo hi : ℚ) : ℚ := if x < lo then lo else if hi < x then hi else x

/-- Construction of one `DrawElementsCmd` from the loop body of
`UI::upload_to_buffers`: the clip rectangle is rounded and clamped into
the framebuffer, Y is flipped to the GL bottom-left origin, offsets are
the accumulated buffer lengths, and the UV scale maps the true image
size onto the fixed layer size. -/
def mkCmd (pool : TexturePool) (width height : ℚ) (nverts nelems : Nat)
    (rect : Rect) (m : Mesh) (info : TextureInfo) : DrawElementsCmd :=
  let clip_min_x := fclamp (fround rect.minX) 0 width
  let clip_min_y := fclamp (fround rect.minY) 0 height
  let clip_max_x := fclamp (fround rect.maxX) clip_min_x width
  let clip_max_y := fclamp (fround rect.maxY) clip_min_y height
  { count := m.indices.length
    instance_count := 1
    first_index := nelems
    base_vertex := nverts
    texture_layer := info.layer
    uv_scale_x := (info.width : ℚ) / (pool.max_width : ℚ)
    uv_scale_y := (info.height : ℚ) / (pool.max_height : ℚ)
    scissor_x := clip_min_x
    scissor_y := height - clip_max_y
    scissor_w := clip_max_x - clip_min_x
    scissor_h := clip_max_y - clip_min_y }

/-- The three per-frame linear buffers plus the diagnostics the loop
prints. -/
structure FrameBuffers where
  vertices : List Vertex
  elements : List Nat
  commands : List DrawElementsCmd
  warnings : List Warning
deriving DecidableEq

/-- The `for clip_primitive in clip_primitives` loop of
`UI::upload_to_buffers`, with the three buffers as the accumulator:
callbacks are skipped, meshes with an unknown texture are skipped with
a diagnostic, and each remaining mesh appends its vertices, its indices
(unmodified) and one draw record. -/
def uploadLoop (pool : TexturePool) (width height : ℚ) (acc : FrameBuffers) :
    List ClippedPrimitive → FrameBuffers
  | [] => acc
  | cp :: rest =>
    match cp.primitive with
    | Primitive.callback => uploadLoop pool width height acc rest
    | Primitive.mesh m =>
      match pool.fetch m.texture_id with
      | none =>
        uploadLoop pool width height
          { acc with warnings := acc.warnings ++ [Warning.unknownTexture m.texture_id] }
          rest
      | some info =>
        uploadLoop pool width height
          { vertices := acc.vertices ++ m.vertices
            elements := acc.elements ++ m.indices
            commands :=
              acc.commands ++
                [mkCmd pool width height acc.vertices.length acc.elements.length
                  cp.clip_rect m info]
            warnings := acc.warnings }
          rest

/-- `UI::upload_to_buffers`: runs the loop from empty buffers and
returns them together with the command count (`commands.len()`). -/
def UI.upload_to_buffers (pool : TexturePool) (width height : ℚ)
    (cps : List ClippedPrimitive) : FrameBuffers × Nat :=
  let out := uploadLoop pool width height ⟨[], [], [], []⟩ cps
  (out, out.commands.length)

/-- egui `ImageDelta`: optional update position (absent means full
replace at the origin), declared size, and pixel data. -/
structure ImageDelta where
  pos : Option (Nat × Nat)
  w : Nat
  h : Nat
  pixels : List Nat
deriving DecidableEq

/-- One write into the GPU texture array (`TextureArray::upload`),
recorded as data since the array is an external GL object. -/
structure TexWrite where
  x : Nat
  y : Nat
  layer : Int
  w : Nat
  h : Nat
  pixels : List Nat
deriving DecidableEq

/-- `UI::update_texture`: resolve-or-create the record of the handle first,
then emit a non-fatal diagnostic if the pixel count does not match the
declared `w * h`, and attempt the write with the given data regardless. -/
def UI.update_texture (pool : TexturePool) (id : TextureId) (delta : ImageDelta) :
    TexturePool × List Warning × List TexWrite :=
  let xy := delta.pos.getD (0, 0)
  let r := pool.fetch_or_add id delta.w delta.h
  let warns :=
    if delta.pixels.length ≠ delta.w * delta.h then
      [Warning.lenMismatch delta.pixels.length delta.w delta.h]
    else []
  (r.1, warns, [⟨xy.1, xy.2, r.2.layer, delta.w, delta.h, delta.pixels⟩])

/-- Offset-passing reformulation of the upload loop: computes the
suffix each primitive list contributes, given the number of vertices
and indices already appended. -/
def buildOut (pool : TexturePool) (width height : ℚ) (bv fi : Nat) :
    List ClippedPrimitive → FrameBuffers
  | [] => ⟨[], [], [], []⟩
  | cp :: rest =>
    match cp.primitive with
    | Primitive.callback => buildOut pool width height bv fi rest
    | Primitive.mesh m =>
      match pool.fetch m.texture_id with
      | none =>
        let B := buildOut pool width height bv fi rest
        { B with warnings := Warning.unknownTexture m.texture_id :: B.warnings }
      | some info =>
        let B := buildOut pool width height (bv + m.vertices.length)
          (fi + m.indices.length) rest
        { vertices := m.vertices ++ B.vertices
          elements := m.indices ++ B.elements
          commands := mkCmd pool width height bv fi cp.clip_rect m info :: B.commands
          warnings := B.warnings }

/-- A list of (clip rectangle, mesh) pairs as egui clipped primitives. -/
def meshItems (items : List (Rect × Mesh)) : List ClippedPrimitive :=
  items.map fun it => ⟨it.1, Primitive.mesh it.2⟩

/-- The draw records the loop emits for a run of mesh items, given the
starting buffer lengths. -/
def cmdList (pool : TexturePool) (width height : ℚ) (bv fi : Nat) :
    List (Rect × Mesh) → List DrawElementsCmd
  | [] => []
  | it :: rest =>
    match pool.fetch it.2.texture_id with
    | none => cmdList pool width height bv fi rest
    | some info =>
      mkCmd pool width height bv fi it.1 it.2 info ::
        cmdList pool width height (bv + it.2.vertices.length)
          (fi + it.2.indices.length) rest

/-- Clamping to an interval, in the min/max formulation of the spec. -/
def clampSpec (x lo hi : ℚ) : ℚ := max lo (min x hi)

/-- An atlas state invariant: the layer of every record is below the
`next_layer` counter, and the records hold pairwise distinct layers. -/
def AtlasInv (p : TexturePool) : Prop :=
  (∀ e ∈ p.infos, e.2.layer < p.next_layer) ∧
  (p.infos.map fun e => e.2.layer).Nodup

instance (p : TexturePool) : Decidable (AtlasInv p) := by
  unfold AtlasInv
  infer_instance

/-- One atlas registration/lookup operation, for stating state
preservation uniformly over `insert`, `fetch_or_add` and `fetch`. -/
inductive AtlasOp where
  | insertTex : Nat → Nat → List Nat → AtlasOp
  | resolveOrCreate : TextureId → Nat → Nat → AtlasOp
  | lookupTex : TextureId → AtlasOp

/-- The pool state after an operation (`none` = the operation aborted;
`fetch` takes `&self` and never changes the state). -/
def TexturePool.applyOp (p : TexturePool) : AtlasOp → Option TexturePool
  | AtlasOp.insertTex w h px => (p.insert w h px).map Prod.fst
  | AtlasOp.resolveOrCreate id w h => some (p.fetch_or_add id w h).1
  | AtlasOp.lookupTex _ => some p

/-- The pool `TexturePool::new(16, 16)` produces: 5 layers, empty map. -/
def pool16 : TexturePool := ⟨[], 16, 16, 5, 0⟩

/-- `insert` iterated n times with a 1-by-1 image. -/
def insertN (p : TexturePool) : Nat → Option TexturePool
  | 0 => some p
  | n + 1 =>
    match p.insert 1 1 [] with
    | none => none
    | some (q, _) => insertN q n

def infoA : TextureInfo := ⟨0, 16, 16⟩
def infoB : TextureInfo := ⟨1, 8, 8⟩
def scenarioPool : TexturePool :=
  ⟨[(TextureId.user 0, infoA), (TextureId.user 1, infoB)], 16, 16, 5, 2⟩
def vtx : Vertex := ⟨0, 0, 0, 0, 0⟩
def meshA : Mesh := ⟨[vtx, vtx, vtx], [0, 1, 2], TextureId.user 0⟩
def meshB : Mesh := ⟨[vtx, vtx, vtx, vtx], [0, 1, 2, 0, 2, 3], TextureId.user 1⟩
def meshC : Mesh := ⟨[vtx, vtx, vtx], [0, 1, 2], TextureId.managed 99⟩
def rect0 : Rect := ⟨0, 0, 50, 50⟩
def rectClip : Rect := ⟨-50, -50, 100, 100⟩

lemma log2fuel_eq_log2 (fuel : Nat) : ∀ n, n ≤ fuel → log2fuel fuel n = Nat.log2 n := by
  induction fuel with
  | zero =>
    intro n hn
    interval_cases n
    simp [log2fuel, Nat.log2]
  | succ f ih =>
    intro n hn
    by_cases h2 : 2 ≤ n
    · have hdiv : n / 2 ≤ f := by omega
      rw [log2fuel, if_pos h2, ih _ hdiv]
      conv_rhs => rw [Nat.log2]
      simp [h2]
    · rw [log2fuel, if_neg h2, Nat.log2]
      simp [h2]

lemma floorLog2_eq_log2 (n : Nat) : floorLog2 n = Nat.log2 n :=
  log2fuel_eq_log2 n n le_rfl

lemma uploadLoop_eq_buildOut (pool : TexturePool) (width height : ℚ)
    (cps : List ClippedPrimitive) : ∀ acc : FrameBuffers,
    uploadLoop pool width height acc cps =
      let B := buildOut pool width height acc.vertices.length acc.elements.length cps
      ⟨acc.vertices ++ B.vertices, acc.elements ++ B.elements,
       acc.commands ++ B.commands, acc.warnings ++ B.warnings⟩ := by
  induction cps with
  | nil => intro acc; simp [uploadLoop, buildOut]
  | cons cp rest ih =>
    intro acc
    match hcp : cp.primitive with
    | Primitive.callback =>
      simp only [uploadLoop, buildOut, hcp]
      exact ih acc
    | Primitive.mesh m =>
      match hf : pool.fetch m.texture_id with
      | none =>
        simp only [uploadLoop, buildOut, hcp, hf]
        rw [ih]
        simp
      | some info =>
        simp only [uploadLoop, buildOut, hcp, hf]
        rw [ih]
        simp [List.length_append]

lemma upload_eq_buildOut (pool : TexturePool) (width height : ℚ)
    (cps : List ClippedPrimitive) :
    (UI.upload_to_buffers pool width height cps).1 = buildOut pool width height 0 0 cps := by
  rw [UI.upload_to_buffers, uploadLoop_eq_buildOut]
  simp

lemma upload_count_eq (pool : TexturePool) (width height : ℚ)
    (cps : List ClippedPrimitive) :
    (UI.upload_to_buffers pool width height cps).2 =
      (buildOut pool width height 0 0 cps).commands.length := by
  rw [UI.upload_to_buffers]
  simp only []
  rw [show (uploadLoop pool width height ⟨[], [], [], []⟩ cps) = buildOut pool width height 0 0 cps from by
    rw [uploadLoop_eq_buildOut]; simp]

lemma buildOut_meshItems (pool : TexturePool) (width height : ℚ) :
    ∀ (items : List (Rect × Mesh)) (bv fi : Nat),
    (∀ it ∈ items, (pool.fetch it.2.texture_id).isSome) →
    buildOut pool width height bv fi (meshItems items) =
      ⟨(items.map fun it => it.2.vertices).flatten,
       (items.map fun it => it.2.indices).flatten,
       cmdList pool width height bv fi items, []⟩ := by
  intro items
  induction items with
  | nil => intro bv fi _; simp [meshItems, buildOut, cmdList]
  | cons it rest ih =>
    intro bv fi hres
    have hit : (pool.fetch it.2.texture_id).isSome := hres it (by simp)
    obtain ⟨info, hinfo⟩ := Option.isSome_iff_exists.mp hit
    have hrest : ∀ it2 ∈ rest, (pool.fetch it2.2.texture_id).isSome := by
      intro it2 h2; exact hres it2 (by simp [h2])
    simp only [meshItems, List.map_cons, buildOut, hinfo, cmdList]
    rw [show (List.map (fun it => ClippedPrimitive.mk it.1 (Primitive.mesh it.2)) rest) = meshItems rest from rfl]
    rw [ih _ _ hrest]
    simp

lemma cmdList_length (pool : TexturePool) (width height : ℚ) :
    ∀ (items : List (Rect × Mesh)) (bv fi : Nat),
    (∀ it ∈ items, (pool.fetch it.2.texture_id).isSome) →
    (cmdList pool width height bv fi items).length = items.length := by
  intro items
  induction items with
  | nil => intro bv fi _; simp [cmdList]
  | cons it rest ih =>
    intro bv fi hres
    obtain ⟨info, hinfo⟩ := Option.isSome_iff_exists.mp (hres it (by simp))
    have hrest : ∀ it2 ∈ rest, (pool.fetch it2.2.texture_id).isSome := by
      intro it2 h2; exact hres it2 (by simp [h2])
    simp [cmdList, hinfo, ih _ _ hrest]

lemma cmdList_get (pool : TexturePool) (width height : ℚ) :
    ∀ (items : List (Rect × Mesh)) (bv fi k : Nat),
    (∀ it ∈ items, (pool.fetch it.2.texture_id).isSome) →
    k < items.length →
    ∃ c it, (cmdList pool width height bv fi items)[k]? = some c ∧
      items[k]? = some it ∧
      c.base_vertex = bv + ((items.take k).map fun it2 => it2.2.vertices.length).sum ∧
      c.first_index = fi + ((items.take k).map fun it2 => it2.2.indices.length).sum ∧
      c.count = it.2.indices.length ∧
      c.instance_count = 1 := by
  intro items
  induction items with
  | nil => intro bv fi k _ hk; simp at hk
  | cons it rest ih =>
    intro bv fi k hres hk
    obtain ⟨info, hinfo⟩ := Option.isSome_iff_exists.mp (hres it (by simp))
    have hrest : ∀ it2 ∈ rest, (pool.fetch it2.2.texture_id).isSome := by
      intro it2 h2; exact hres it2 (by simp [h2])
    match k with
    | 0 =>
      refine ⟨mkCmd pool width height bv fi it.1 it.2 info, it, ?_, ?_, ?_, ?_, ?_, ?_⟩ <;>
        simp [cmdList, hinfo, mkCmd]
    | k + 1 =>
      obtain ⟨c, it2, hc, hit2, hbv, hfi, hcount, hinst⟩ :=
        ih (bv + it.2.vertices.length) (fi + it.2.indices.length) k hrest (by simpa using hk)
      refine ⟨c, it2, ?_, ?_, ?_, ?_, hcount, hinst⟩
      · simpa [cmdList, hinfo]
      · simpa using hit2
      · rw [hbv]; simp [List.take_succ_cons]; omega
      · rw [hfi]; simp [List.take_succ_cons]; omega

lemma fclamp_le (x lo hi : ℚ) (h : lo ≤ hi) : fclamp x lo hi ≤ hi := by
  unfold fclamp
  split
  · exact h
  · split
    · exact le_rfl
    · linarith [not_lt.mp (by assumption : ¬hi < x)]

lemma le_fclamp (x lo hi : ℚ) (h : lo ≤ hi) : lo ≤ fclamp x lo hi := by
  unfold fclamp
  split
  · exact le_rfl
  · split
    · exact h
    · linarith [not_lt.mp (by assumption : ¬x < lo)]

lemma fclamp_eq_clampSpec (x lo hi : ℚ) (h : lo ≤ hi) :
    fclamp x lo hi = clampSpec x lo hi := by
  unfold fclamp clampSpec
  rcases lt_or_le x lo with h1 | h1
  · rw [if_pos h1, max_eq_left]
    exact le_trans (min_le_left _ _) h1.le
  · rw [if_neg (not_lt.mpr h1)]
    rcases lt_or_le hi x with h2 | h2
    · rw [if_pos h2, min_eq_right h2.le, max_eq_right h]
    · rw [if_neg (not_lt.mpr h2), min_eq_left h2, max_eq_right h1]

lemma mkCmd_scissor_bounds (pool : TexturePool) (width height : ℚ)
    (nverts nelems : Nat) (rect : Rect) (m : Mesh) (info : TextureInfo)
    (hw : 0 ≤ width) (hh : 0 ≤ height) :
    0 ≤ (mkCmd pool width height nverts nelems rect m info).scissor_x ∧
    0 ≤ (mkCmd pool width height nverts nelems rect m info).scissor_y ∧
    (mkCmd pool width height nverts nelems rect m info).scissor_x +
      (mkCmd pool width height nverts nelems rect m info).scissor_w ≤ width ∧
    (mkCmd pool width height nverts nelems rect m info).scissor_y +
      (mkCmd pool width height nverts nelems rect m info).scissor_h ≤ height := by
  unfold mkCmd
  have h1 : 0 ≤ fclamp (fround rect.minX) 0 width := le_fclamp _ _ _ hw
  have h2 : fclamp (fround rect.minX) 0 width ≤ width := fclamp_le _ _ _ hw
  have h3 : 0 ≤ fclamp (fround rect.minY) 0 height := le_fclamp _ _ _ hh
  have h4 : fclamp (fround rect.minY) 0 height ≤ height := fclamp_le _ _ _ hh
  have h5 : fclamp (fround rect.maxX) (fclamp (fround rect.minX) 0 width) width ≤ width :=
    fclamp_le _ _ _ h2
  have h6 : fclamp (fround rect.minX) 0 width ≤
      fclamp (fround rect.maxX) (fclamp (fround rect.minX) 0 width) width :=
    le_fclamp _ _ _ h2
  have h7 : fclamp (fround rect.maxY) (fclamp (fround rect.minY) 0 height) height ≤ height :=
    fclamp_le _ _ _ h4
  have h8 : fclamp (fround rect.minY) 0 height ≤
      fclamp (fround rect.maxY) (fclamp (fround rect.minY) 0 height) height :=
    le_fclamp _ _ _ h4
  refine ⟨h1, ?_, ?_, ?_⟩ <;> simp only [] <;> linarith

lemma buildOut_commands_mem (pool : TexturePool) (width height : ℚ) :
    ∀ (cps : List ClippedPrimitive) (bv fi : Nat) (c : DrawElementsCmd),
    c ∈ (buildOut pool width height bv fi cps).commands →
    ∃ bv2 fi2 rect m info, pool.fetch m.texture_id = some info ∧
      c = mkCmd pool width height bv2 fi2 rect m info := by
  intro cps
  induction cps with
  | nil => intro bv fi c hc; simp [buildOut] at hc
  | cons cp rest ih =>
    intro bv fi c hc
    match hcp : cp.primitive with
    | Primitive.callback =>
      simp only [buildOut, hcp] at hc
      exact ih bv fi c hc
    | Primitive.mesh m =>
      match hf : pool.fetch m.texture_id with
      | none =>
        simp only [buildOut, hcp, hf] at hc
        exact ih bv fi c hc
      | some info =>
        simp only [buildOut, hcp, hf] at hc
        simp only [List.mem_cons] at hc
        rcases hc with hc | hc
        · exact ⟨bv, fi, cp.clip_rect, m, info, hf, hc⟩
        · exact ih _ _ c hc

lemma buildOut_append (pool : TexturePool) (width height : ℚ) :
    ∀ (l1 l2 : List ClippedPrimitive) (bv fi : Nat),
    buildOut pool width height bv fi (l1 ++ l2) =
      { vertices := (buildOut pool width height bv fi l1).vertices ++
          (buildOut pool width height
            (bv + (buildOut pool width height bv fi l1).vertices.length)
            (fi + (buildOut pool width height bv fi l1).elements.length) l2).vertices
        elements := (buildOut pool width height bv fi l1).elements ++
          (buildOut pool width height
            (bv + (buildOut pool width height bv fi l1).vertices.length)
            (fi + (buildOut pool width height bv fi l1).elements.length) l2).elements
        commands := (buildOut pool width height bv fi l1).commands ++
          (buildOut pool width height
            (bv + (buildOut pool width height bv fi l1).vertices.length)
            (fi + (buildOut pool width height bv fi l1).elements.length) l2).commands
        warnings := (buildOut pool width height bv fi l1).warnings ++
          (buildOut pool width height
            (bv + (buildOut pool width height bv fi l1).vertices.length)
            (fi + (buildOut pool width height bv fi l1).elements.length) l2).warnings } := by
  intro l1
  induction l1 with
  | nil => intro l2 bv fi; simp [buildOut]
  | cons cp rest ih =>
    intro l2 bv fi
    match hcp : cp.primitive with
    | Primitive.callback =>
      simp only [List.cons_append, buildOut, hcp, List.append_eq]
      exact ih l2 bv fi
    | Primitive.mesh m =>
      match hf : pool.fetch m.texture_id with
      | none =>
        simp only [List.cons_append, buildOut, hcp, hf, List.append_eq]
        rw [ih l2 bv fi]
      | some info =>
        simp only [List.cons_append, buildOut, hcp, hf, List.append_eq]
        rw [ih l2 (bv + m.vertices.length) (fi + m.indices.length)]
        simp [List.length_append, Nat.add_assoc]

lemma buildOut_warnings_offset_free (pool : TexturePool) (width height : ℚ) :
    ∀ (cps : List ClippedPrimitive) (bv fi : Nat),
    (buildOut pool width height bv fi cps).warnings =
      (buildOut pool width height 0 0 cps).warnings := by
  intro cps
  induction cps with
  | nil => intro bv fi; simp [buildOut]
  | cons cp rest ih =>
    intro bv fi
    match hcp : cp.primitive with
    | Primitive.callback =>
      simp only [buildOut, hcp]
      exact ih bv fi
    | Primitive.mesh m =>
      match hf : pool.fetch m.texture_id with
      | none =>
        simp only [buildOut, hcp, hf]
        rw [ih bv fi, ih 0 0]
      | some info =>
        simp only [buildOut, hcp, hf]
        rw [ih (bv + m.vertices.length) (fi + m.indices.length),
          ih (0 + m.vertices.length) (0 + m.indices.length)]

lemma alLookup_eq_none (id : TextureId) :
    ∀ l : List (TextureId × TextureInfo), id ∉ l.map Prod.fst → alLookup id l = none := by
  intro l
  induction l with
  | nil => intro _; rfl
  | cons e rest ih =>
    intro hmem
    simp only [List.map_cons, List.mem_cons] at hmem
    push_neg at hmem
    rw [alLookup, if_neg (fun h => hmem.1 h.symm)]
    exact ih hmem.2

lemma alLookup_alInsert_self (k : TextureId) (v : TextureInfo) :
    ∀ l, alLookup k (alInsert k v l) = some v := by
  intro l
  induction l with
  | nil => simp [alInsert, alLookup]
  | cons e rest ih =>
    by_cases h : e.1 = k
    · simp [alInsert, alLookup, h]
    · simp only [alInsert, if_neg h, alLookup, if_neg h]
      exact ih

lemma alLookup_alInsert_ne (k k2 : TextureId) (v : TextureInfo) (hne : k2 ≠ k) :
    ∀ l, alLookup k2 (alInsert k v l) = alLookup k2 l := by
  intro l
  induction l with
  | nil =>
    simp only [alInsert, alLookup]
    rw [if_neg (fun h : k = k2 => hne h.symm)]
  | cons e rest ih =>
    by_cases h : e.1 = k
    · simp only [alInsert, if_pos h, alLookup]
      rw [if_neg (fun h2 : k = k2 => hne h2.symm),
        if_neg (fun h2 : e.1 = k2 => hne ((h.symm.trans h2).symm))]
    · simp only [alInsert, if_neg h, alLookup]
      rw [ih]

lemma mem_alInsert (k : TextureId) (v : TextureInfo) :
    ∀ l e, e ∈ alInsert k v l → e = (k, v) ∨ e ∈ l := by
  intro l
  induction l with
  | nil => intro e he; simp [alInsert] at he; exact Or.inl he
  | cons e2 rest ih =>
    intro e he
    by_cases h : e2.1 = k
    · simp only [alInsert, if_pos h, List.mem_cons] at he
      rcases he with he | he
      · exact Or.inl he
      · exact Or.inr (List.mem_cons_of_mem _ he)
    · simp only [alInsert, if_neg h, List.mem_cons] at he
      rcases he with he | he
      · exact Or.inr (he ▸ List.mem_cons_self _ _)
      · rcases ih e he with h2 | h2
        · exact Or.inl h2
        · exact Or.inr (List.mem_cons_of_mem _ h2)

lemma nodup_layers_alInsert (k : TextureId) (v : TextureInfo) :
    ∀ l, (∀ e ∈ l, e.2.layer ≠ v.layer) →
    (l.map fun e => e.2.layer).Nodup →
    ((alInsert k v l).map fun e => e.2.layer).Nodup := by
  intro l
  induction l with
  | nil => intro _ _; simp [alInsert]
  | cons e rest ih =>
    intro hne hnd
    simp only [List.map_cons, List.nodup_cons] at hnd
    by_cases h : e.1 = k
    · simp only [alInsert, if_pos h, List.map_cons, List.nodup_cons]
      refine ⟨?_, hnd.2⟩
      intro hmem
      simp only [List.mem_map] at hmem
      obtain ⟨e2, he2, heq⟩ := hmem
      exact hne e2 (List.mem_cons_of_mem _ he2) heq
    · simp only [alInsert, if_neg h, List.map_cons, List.nodup_cons]
      refine ⟨?_, ih (fun e2 he2 => hne e2 (List.mem_cons_of_mem _ he2)) hnd.2⟩
      intro hmem
      simp only [List.mem_map] at hmem
      obtain ⟨e2, he2, heq⟩ := hmem
      rcases mem_alInsert k v rest e2 he2 with rfl | h2
      · exact hne e (List.mem_cons_self _ _) heq.symm
      · exact hnd.1 (List.mem_map.mpr ⟨e2, h2, heq⟩)

/-- C7 (amended): a record already present is returned unchanged by
`fetch_or_add` (whatever sizes are supplied) with the pool unchanged;
no `fetch_or_add` on any handle alters it; and `insert` preserves it
provided the fresh handle `User(next_layer)` is not already taken. -/
theorem atlas_records_stable (p : TexturePool) (id : TextureId) (info : TextureInfo)
    (hid : p.fetch id = some info)
    (hfresh : p.fetch (TextureId.user p.next_layer.toNat) = none) :
    (∀ w h, p.fetch_or_add id w h = (p, info)) ∧
    (∀ id2 w h, ((p.fetch_or_add id2 w h).1).fetch id = some info) ∧
    (∀ w h px q st, p.insert w h px = some (q, st) → q.fetch id = some info) := by
  have hid0 : alLookup id p.infos = some info := hid
  refine ⟨?_, ?_, ?_⟩
  · intro w h
    rw [TexturePool.fetch_or_add, hid0]
  · intro id2 w h
    rw [TexturePool.fetch_or_add]
    match h2 : alLookup id2 p.infos with
    | some info2 => exact hid
    | none =>
      simp only [TexturePool.fetch]
      have hne : id ≠ id2 := fun heq => by rw [heq, h2] at hid0; exact Option.noConfusion hid0
      rw [alLookup_alInsert_ne id2 id _ hne]
      exact hid0
  · intro w h px q st hins
    rw [TexturePool.insert] at hins
    split at hins
    · split at hins
      · simp only [Option.some.injEq, Prod.mk.injEq] at hins
        obtain ⟨hq, -⟩ := hins
        rw [← hq]
        simp only [TexturePool.fetch]
        have hne : id ≠ TextureId.user p.next_layer.toNat := fun heq => by
          rw [heq] at hid
          rw [hid] at hfresh
          exact Option.noConfusion hfresh
        rw [alLookup_alInsert_ne _ _ _ hne]
        exact hid0
      · exact Option.noConfusion hins
    · exact Option.noConfusion hins

lemma alInsert_fresh_layer_inv (p : TexturePool) (id : TextureId) (w h : Nat)
    (hinv : AtlasInv p) :
    AtlasInv { p with
      infos := alInsert id ⟨p.next_layer, (w : Int), (h : Int)⟩ p.infos,
      next_layer := p.next_layer + 1 } := by
  obtain ⟨hlt, hnd⟩ := hinv
  constructor
  · intro e he
    rcases mem_alInsert _ _ _ _ he with rfl | h2
    · simp only []
      omega
    · have := hlt e h2
      simp only []
      omega
  · exact nodup_layers_alInsert _ _ _ (fun e he heq => absurd heq (by
      have := hlt e he
      simp only []
      omega)) hnd

/-- C10: every atlas operation leaves `next_layer` non-decreasing and
preserves the invariant that record layers are below `next_layer` and
pairwise distinct. -/
theorem atlas_ops_preserve_inv (p q : TexturePool) (op : AtlasOp)
    (hinv : AtlasInv p) (hstep : p.applyOp op = some q) :
    p.next_layer ≤ q.next_layer ∧ AtlasInv q := by
  match op with
  | AtlasOp.lookupTex id =>
    simp only [TexturePool.applyOp, Option.some.injEq] at hstep
    exact hstep ▸ ⟨le_rfl, hinv⟩
  | AtlasOp.resolveOrCreate id w h =>
    simp only [TexturePool.applyOp, Option.some.injEq] at hstep
    rw [TexturePool.fetch_or_add] at hstep
    match h2 : alLookup id p.infos with
    | some info =>
      rw [h2] at hstep
      exact hstep ▸ ⟨le_rfl, hinv⟩
    | none =>
      rw [h2] at hstep
      simp only [] at hstep
      refine hstep ▸ ⟨by simp, ?_⟩
      exact alInsert_fresh_layer_inv p id w h hinv
  | AtlasOp.insertTex w h px =>
    simp only [TexturePool.applyOp] at hstep
    rw [TexturePool.insert] at hstep
    split at hstep
    · split at hstep
      · simp only [Option.map_some', Option.some.injEq] at hstep
        refine hstep ▸ ⟨by simp, ?_⟩
        exact alInsert_fresh_layer_inv p _ w h hinv
      · exact Option.noConfusion hstep
    · exact Option.noConfusion hstep

/-- C2: for meshes whose textures all resolve, the builder emits one
draw record per mesh in order, with running-sum offsets and
concatenated buffers. -/
theorem upload_cmds_match_meshes (pool : TexturePool) (width height : ℚ)
    (items : List (Rect × Mesh))
    (hres : ∀ it ∈ items, (pool.fetch it.2.texture_id).isSome) :
    ((UI.upload_to_buffers pool width height (meshItems items)).1.vertices =
      (items.map fun it => it.2.vertices).flatten) ∧
    ((UI.upload_to_buffers pool width height (meshItems items)).1.elements =
      (items.map fun it => it.2.indices).flatten) ∧
    ((UI.upload_to_buffers pool width height (meshItems items)).2 = items.length) ∧
    (∀ k, k < items.length →
      ∃ c it,
        ((UI.upload_to_buffers pool width height (meshItems items)).1.commands)[k]? = some c ∧
        items[k]? = some it ∧
        c.base_vertex = ((items.take k).map fun it2 => it2.2.vertices.length).sum ∧
        c.first_index = ((items.take k).map fun it2 => it2.2.indices.length).sum ∧
        c.count = it.2.indices.length ∧
        c.instance_count = 1) := by
  have hb := buildOut_meshItems pool width height items 0 0 hres
  have h1 := upload_eq_buildOut pool width height (meshItems items)
  have h2 := upload_count_eq pool width height (meshItems items)
  rw [h1, hb]
  rw [h2, hb]
  refine ⟨rfl, rfl, ?_, ?_⟩
  · simpa using cmdList_length pool width height items 0 0 hres
  · intro k hk
    obtain ⟨c, it, hc, hit, hbv, hfi, hcount, hinst⟩ :=
      cmdList_get pool width height items 0 0 k hres hk
    exact ⟨c, it, hc, hit, by simpa using hbv, by simpa using hfi, hcount, hinst⟩

/-- C4: every emitted scissor rectangle lies inside the framebuffer,
for arbitrary clip rectangles. -/
theorem upload_scissor_in_framebuffer (pool : TexturePool) (width height : ℚ)
    (cps : List ClippedPrimitive) (c : DrawElementsCmd)
    (hw : 0 ≤ width) (hh : 0 ≤ height)
    (hc : c ∈ (UI.upload_to_buffers pool width height cps).1.commands) :
    0 ≤ c.scissor_x ∧ 0 ≤ c.scissor_y ∧
    c.scissor_x + c.scissor_w ≤ width ∧ c.scissor_y + c.scissor_h ≤ height := by
  rw [upload_eq_buildOut] at hc
  obtain ⟨bv2, fi2, rect, m, info, -, rfl⟩ :=
    buildOut_commands_mem pool width height cps 0 0 c hc
  exact mkCmd_scissor_bounds pool width height bv2 fi2 rect m info hw hh

/-- C5: every emitted draw record carries the UV scale of some record
resolved from the pool, namely true size over configured layer size. -/
theorem upload_uv_scale_from_record (pool : TexturePool) (width height : ℚ)
    (cps : List ClippedPrimitive) (c : DrawElementsCmd)
    (hc : c ∈ (UI.upload_to_buffers pool width height cps).1.commands) :
    ∃ id info, pool.fetch id = some info ∧
      c.uv_scale_x = (info.width : ℚ) / (pool.max_width : ℚ) ∧
      c.uv_scale_y = (info.height : ℚ) / (pool.max_height : ℚ) ∧
      c.texture_layer = info.layer := by
  rw [upload_eq_buildOut] at hc
  obtain ⟨bv2, fi2, rect, m, info, hf, rfl⟩ :=
    buildOut_commands_mem pool width height cps 0 0 c hc
  exact ⟨m.texture_id, info, hf, rfl, rfl, rfl⟩

/-- C3: for a single mesh with a resolved texture, the emitted scissor
fields follow the clamp-then-flip-Y formula of the spec. -/
theorem upload_scissor_formula (pool : TexturePool) (width height : ℚ)
    (rect : Rect) (m : Mesh) (info : TextureInfo)
    (hres : pool.fetch m.texture_id = some info)
    (hw : 0 ≤ width) (hh : 0 ≤ height) :
    ∃ c, (UI.upload_to_buffers pool width height [⟨rect, Primitive.mesh m⟩]).1.commands = [c] ∧
      c.scissor_x = clampSpec (fround rect.minX) 0 width ∧
      c.scissor_y = height -
        clampSpec (fround rect.maxY) (clampSpec (fround rect.minY) 0 height) height ∧
      c.scissor_w =
        clampSpec (fround rect.maxX) (clampSpec (fround rect.minX) 0 width) width -
          clampSpec (fround rect.minX) 0 width ∧
      c.scissor_h =
        clampSpec (fround rect.maxY) (clampSpec (fround rect.minY) 0 height) height -
          clampSpec (fround rect.minY) 0 height := by
  rw [upload_eq_buildOut]
  have e1 : fclamp (fround rect.minX) 0 width = clampSpec (fround rect.minX) 0 width :=
    fclamp_eq_clampSpec _ _ _ hw
  have e2 : fclamp (fround rect.minY) 0 height = clampSpec (fround rect.minY) 0 height :=
    fclamp_eq_clampSpec _ _ _ hh
  have hxw : clampSpec (fround rect.minX) 0 width ≤ width := by
    rw [← e1]; exact fclamp_le _ _ _ hw
  have hyh : clampSpec (fround rect.minY) 0 height ≤ height := by
    rw [← e2]; exact fclamp_le _ _ _ hh
  have e3 : fclamp (fround rect.maxX) (clampSpec (fround rect.minX) 0 width) width =
      clampSpec (fround rect.maxX) (clampSpec (fround rect.minX) 0 width) width :=
    fclamp_eq_clampSpec _ _ _ hxw
  have e4 : fclamp (fround rect.maxY) (clampSpec (fround rect.minY) 0 height) height =
      clampSpec (fround rect.maxY) (clampSpec (fround rect.minY) 0 height) height :=
    fclamp_eq_clampSpec _ _ _ hyh
  refine ⟨mkCmd pool width height 0 0 rect m info, ?_, ?_, ?_, ?_, ?_⟩
  · simp [buildOut, hres]
  all_goals
    simp only [mkCmd, e1, e2, e3, e4]

/-- C6: an unregistered handle resolves to `none` (no abort), and its
mesh is skipped entirely: vertex, index and command buffers and the
command count are those of the same frame without that mesh, while one
"unknown texture" diagnostic is recorded between the diagnostics of the
surrounding meshes. -/
theorem unknown_texture_skips_mesh (pool : TexturePool) (width height : ℚ)
    (pre post : List ClippedPrimitive) (rect : Rect) (m : Mesh)
    (hreg : m.texture_id ∉ pool.infos.map Prod.fst) :
    pool.fetch m.texture_id = none ∧
    (UI.upload_to_buffers pool width height (pre ++ ⟨rect, Primitive.mesh m⟩ :: post)).1.vertices =
      (UI.upload_to_buffers pool width height (pre ++ post)).1.vertices ∧
    (UI.upload_to_buffers pool width height (pre ++ ⟨rect, Primitive.mesh m⟩ :: post)).1.elements =
      (UI.upload_to_buffers pool width height (pre ++ post)).1.elements ∧
    (UI.upload_to_buffers pool width height (pre ++ ⟨rect, Primitive.mesh m⟩ :: post)).1.commands =
      (UI.upload_to_buffers pool width height (pre ++ post)).1.commands ∧
    (UI.upload_to_buffers pool width height (pre ++ ⟨rect, Primitive.mesh m⟩ :: post)).2 =
      (UI.upload_to_buffers pool width height (pre ++ post)).2 ∧
    (UI.upload_to_buffers pool width height (pre ++ ⟨rect, Primitive.mesh m⟩ :: post)).1.warnings =
      (UI.upload_to_buffers pool width height pre).1.warnings ++
        Warning.unknownTexture m.texture_id ::
          (UI.upload_to_buffers pool width height post).1.warnings := by
  have hnone : pool.fetch m.texture_id = none :=
    alLookup_eq_none m.texture_id pool.infos hreg
  have key : buildOut pool width height 0 0 (pre ++ ⟨rect, Primitive.mesh m⟩ :: post) =
      { buildOut pool width height 0 0 (pre ++ post) with
        warnings := (buildOut pool width height 0 0 pre).warnings ++
          Warning.unknownTexture m.texture_id ::
            (buildOut pool width height 0 0 post).warnings } := by
    rw [buildOut_append pool width height pre (⟨rect, Primitive.mesh m⟩ :: post),
      buildOut_append pool width height pre post]
    simp only [buildOut, hnone]
    rw [buildOut_warnings_offset_free pool width height post
      (0 + (buildOut pool width height 0 0 pre).vertices.length)
      (0 + (buildOut pool width height 0 0 pre).elements.length)]
  refine ⟨hnone, ?_, ?_, ?_, ?_, ?_⟩
  · rw [upload_eq_buildOut, upload_eq_buildOut, key]
  · rw [upload_eq_buildOut, upload_eq_buildOut, key]
  · rw [upload_eq_buildOut, upload_eq_buildOut, key]
  · rw [upload_count_eq, upload_count_eq, key]
  · rw [upload_eq_buildOut, upload_eq_buildOut, upload_eq_buildOut, key]

/-- C8: for positive dimensions the construction succeeds and the layer
capacity is floor(log2(max(max_width, max_height))) + 1. -/
theorem atlas_capacity_formula (w h : Nat) (hw : 1 ≤ w) (hh : 1 ≤ h) :
    ∃ p, TexturePool.new w h = some p ∧
      p.max_depth = (Nat.log2 (max w h) : Int) + 1 ∧
      p.max_width = w ∧ p.max_height = h ∧ p.next_layer = 0 := by
  have hpos : (0 : Int) < max (w : Int) (h : Int) := by
    have h1 : (1 : Int) ≤ (w : Int) := by exact_mod_cast hw
    exact lt_of_lt_of_le (by omega) (le_max_left _ _)
  rw [TexturePool.new, ilog2, if_neg (not_le.mpr hpos)]
  refine ⟨_, rfl, ?_, rfl, rfl, rfl⟩
  have hmax : (max (w : Int) (h : Int)) = ((max w h : Nat) : Int) := by
    rw [Nat.cast_max]
  rw [hmax, Int.toNat_natCast, floorLog2_eq_log2]

/-- C9: a texture delta whose pixel count disagrees with its declared
size produces one diagnostic, the write is still attempted with the
given data, and the record is created or fetched exactly as for a
well-formed delta. -/
theorem texture_delta_mismatch_nonfatal (pool : TexturePool) (id : TextureId)
    (delta : ImageDelta) (hmm : delta.pixels.length ≠ delta.w * delta.h) :
    (UI.update_texture pool id delta).2.1 =
      [Warning.lenMismatch delta.pixels.length delta.w delta.h] ∧
    (UI.update_texture pool id delta).2.2 =
      [⟨(delta.pos.getD (0, 0)).1, (delta.pos.getD (0, 0)).2,
        (pool.fetch_or_add id delta.w delta.h).2.layer, delta.w, delta.h, delta.pixels⟩] ∧
    (UI.update_texture pool id delta).1 = (pool.fetch_or_add id delta.w delta.h).1 ∧
    ∀ px2, (UI.update_texture pool id ⟨delta.pos, delta.w, delta.h, px2⟩).1 =
      (UI.update_texture pool id delta).1 := by
  refine ⟨?_, rfl, rfl, fun px2 => rfl⟩
  simp only [UI.update_texture, if_pos hmm]

/-- C1 exhibit: on a 5-layer atlas, `insert` is fatal exactly past 5
registrations, but `fetch_or_add` performs no capacity check: a sixth
distinct handle is assigned layer 5 and pushes `next_layer` to 6,
breaking `next_layer ≤ max_layers` without aborting. -/
theorem fetch_or_add_misses_capacity_check :
    TexturePool.new 16 16 = some pool16 ∧
    pool16.max_depth = 5 ∧
    (insertN pool16 5).isSome = true ∧
    insertN pool16 6 = none ∧
    (((List.range 6).map TextureId.managed).foldl
      (fun p id => (p.fetch_or_add id 1 1).1) pool16).next_layer = 6 ∧
    (((List.range 6).map TextureId.managed).foldl
      (fun p id => (p.fetch_or_add id 1 1).1) pool16).fetch (TextureId.managed 5) =
      some ⟨5, 1, 1⟩ := by
  refine ⟨?_, ?_, ?_, ?_, ?_, ?_⟩ <;> decide

/-- C7 counterexample: `insert` binds the handle `User(next_layer)`;
when that handle was registered earlier through `fetch_or_add`, the
insert overwrites its record, so an atlas operation does change the
layer/width/height an existing handle maps to. -/
theorem insert_remaps_existing_handle :
    ((pool16.fetch_or_add (TextureId.user 1) 8 8).1).fetch (TextureId.user 1) =
      some ⟨0, 8, 8⟩ ∧
    ∃ q st,
      ((pool16.fetch_or_add (TextureId.user 1) 8 8).1).insert 4 4 [] = some (q, st) ∧
      q.fetch (TextureId.user 1) = some ⟨1, 4, 4⟩ := by
  refine ⟨by decide, ⟨⟨[(TextureId.user 1, ⟨1, 4, 4⟩)], 16, 16, 5, 2⟩,
    ⟨TextureId.user 1, 4, 4⟩, by decide, by decide⟩⟩

/-- C2 witness: concrete two-mesh frame. -/
theorem upload_cmds_match_meshes_witness :
    (∀ it ∈ [(rect0, meshA), (rect0, meshB)],
      (scenarioPool.fetch it.2.texture_id).isSome) ∧
    (UI.upload_to_buffers scenarioPool 800 600
      (meshItems [(rect0, meshA), (rect0, meshB)])).2 = 2 ∧
    ∃ c it,
      ((UI.upload_to_buffers scenarioPool 800 600
        (meshItems [(rect0, meshA), (rect0, meshB)])).1.commands)[1]? = some c ∧
      [(rect0, meshA), (rect0, meshB)][1]? = some it ∧
      c.base_vertex = 3 ∧ c.first_index = 3 ∧ c.count = 6 ∧ c.instance_count = 1 := by
  have hres : ∀ it ∈ [(rect0, meshA), (rect0, meshB)],
      (scenarioPool.fetch it.2.texture_id).isSome := by decide
  obtain ⟨-, -, hcount, hk⟩ :=
    upload_cmds_match_meshes scenarioPool 800 600 [(rect0, meshA), (rect0, meshB)] hres
  obtain ⟨c, it, hc, hit, hbv, hfi, hcnt, hinst⟩ := hk 1 (by norm_num)
  have hit2 : it = (rect0, meshB) := by
    rw [show [(rect0, meshA), (rect0, meshB)][1]? = some (rect0, meshB) from rfl] at hit
    exact (Option.some.inj hit).symm
  refine ⟨hres, by rw [hcount]; rfl, c, it, hc, hit, ?_, ?_, ?_, hinst⟩
  · rw [hbv]; rfl
  · rw [hfi]; rfl
  · rw [hcnt, hit2]; rfl

/-- C3 witness: framebuffer 800 by 600, clip (-50,-50)-(100,100) gives
scissor (0, 500, 100, 100). -/
theorem upload_scissor_formula_witness :
    scenarioPool.fetch meshA.texture_id = some infoA ∧ (0 : ℚ) ≤ 800 ∧ (0 : ℚ) ≤ 600 ∧
    ∃ c, (UI.upload_to_buffers scenarioPool 800 600
        [⟨rectClip, Primitive.mesh meshA⟩]).1.commands = [c] ∧
      c.scissor_x = 0 ∧ c.scissor_y = 500 ∧ c.scissor_w = 100 ∧ c.scissor_h = 100 := by
  obtain ⟨c, hc, h1, h2, h3, h4⟩ := upload_scissor_formula scenarioPool 800 600 rectClip meshA
    infoA rfl (by norm_num) (by norm_num)
  refine ⟨rfl, by norm_num, by norm_num, c, hc, ?_, ?_, ?_, ?_⟩
  · rw [h1]; norm_num [clampSpec, fround, rectClip]
  · rw [h2]; norm_num [clampSpec, fround, rectClip]
  · rw [h3]; norm_num [clampSpec, fround, rectClip]
  · rw [h4]; norm_num [clampSpec, fround, rectClip]

/-- C4 witness: a clip rectangle with inverted, out-of-range corners
still yields an in-bounds scissor. -/
theorem upload_scissor_in_framebuffer_witness :
    (0 : ℚ) ≤ 800 ∧ (0 : ℚ) ≤ 600 ∧
    ∃ c, (UI.upload_to_buffers scenarioPool 800 600
        [⟨⟨900, -50, -100, 700⟩, Primitive.mesh meshA⟩]).1.commands = [c] ∧
      0 ≤ c.scissor_x ∧ 0 ≤ c.scissor_y ∧
      c.scissor_x + c.scissor_w ≤ 800 ∧ c.scissor_y + c.scissor_h ≤ 600 := by
  have hc : (UI.upload_to_buffers scenarioPool 800 600
      [⟨⟨900, -50, -100, 700⟩, Primitive.mesh meshA⟩]).1.commands =
      [mkCmd scenarioPool 800 600 0 0 ⟨900, -50, -100, 700⟩ meshA infoA] := rfl
  have hmem : mkCmd scenarioPool 800 600 0 0 ⟨900, -50, -100, 700⟩ meshA infoA ∈
      (UI.upload_to_buffers scenarioPool 800 600
        [⟨⟨900, -50, -100, 700⟩, Primitive.mesh meshA⟩]).1.commands := by
    rw [hc]; exact List.mem_singleton_self _
  have h := upload_scissor_in_framebuffer scenarioPool 800 600
    [⟨⟨900, -50, -100, 700⟩, Primitive.mesh meshA⟩] _ (by norm_num) (by norm_num) hmem
  exact ⟨by norm_num, by norm_num, _, hc, h.1, h.2.1, h.2.2.1, h.2.2.2⟩

/-- C5 witness: the end-to-end scenario of the spec (16-layer-size
atlas, 16 by 16 and 8 by 8 textures, one unknown handle). -/
theorem upload_uv_scale_from_record_witness :
    pool16.insert 16 16 [] =
      some (⟨[(TextureId.user 0, infoA)], 16, 16, 5, 1⟩, ⟨TextureId.user 0, 16, 16⟩) ∧
    TexturePool.insert ⟨[(TextureId.user 0, infoA)], 16, 16, 5, 1⟩ 8 8 [] =
      some (scenarioPool, ⟨TextureId.user 1, 8, 8⟩) ∧
    (UI.upload_to_buffers scenarioPool 800 600
      (meshItems [(rect0, meshA), (rect0, meshB), (rect0, meshC)])).2 = 2 ∧
    (UI.upload_to_buffers scenarioPool 800 600
      (meshItems [(rect0, meshA), (rect0, meshB), (rect0, meshC)])).1.warnings =
      [Warning.unknownTexture (TextureId.managed 99)] ∧
    ∃ c c2,
      (UI.upload_to_buffers scenarioPool 800 600
        (meshItems [(rect0, meshA), (rect0, meshB), (rect0, meshC)])).1.commands = [c, c2] ∧
      c.uv_scale_x = 1 ∧ c.uv_scale_y = 1 ∧ c2.uv_scale_x = 1 / 2 ∧ c2.uv_scale_y = 1 / 2 ∧
      (∃ id info, scenarioPool.fetch id = some info ∧
        c.uv_scale_x = (info.width : ℚ) / (scenarioPool.max_width : ℚ) ∧
        c.uv_scale_y = (info.height : ℚ) / (scenarioPool.max_height : ℚ) ∧
        c.texture_layer = info.layer) := by
  have hc : (UI.upload_to_buffers scenarioPool 800 600
      (meshItems [(rect0, meshA), (rect0, meshB), (rect0, meshC)])).1.commands =
      [mkCmd scenarioPool 800 600 0 0 rect0 meshA infoA,
       mkCmd scenarioPool 800 600 3 3 rect0 meshB infoB] := rfl
  have hmem : mkCmd scenarioPool 800 600 0 0 rect0 meshA infoA ∈
      (UI.upload_to_buffers scenarioPool 800 600
        (meshItems [(rect0, meshA), (rect0, meshB), (rect0, meshC)])).1.commands := by
    rw [hc]; exact List.mem_cons_self _ _
  refine ⟨by decide, by decide, rfl, rfl, _, _, hc, ?_, ?_, ?_, ?_,
    upload_uv_scale_from_record scenarioPool 800 600 _ _ hmem⟩
  · norm_num [mkCmd, scenarioPool, infoA]
  · norm_num [mkCmd, scenarioPool, infoA]
  · norm_num [mkCmd, scenarioPool, infoB]
  · norm_num [mkCmd, scenarioPool, infoB]

/-- C6 witness: a frame with a known, an unknown and another known
mesh drops exactly the unknown one and logs one diagnostic. -/
theorem unknown_texture_skips_mesh_witness :
    (TextureId.managed 99 ∉ scenarioPool.infos.map Prod.fst) ∧
    scenarioPool.fetch (TextureId.managed 99) = none ∧
    (UI.upload_to_buffers scenarioPool 800 600
      ([⟨rect0, Primitive.mesh meshA⟩] ++ ⟨rect0, Primitive.mesh meshC⟩ ::
        [⟨rect0, Primitive.mesh meshB⟩])).1.commands =
      (UI.upload_to_buffers scenarioPool 800 600
        ([⟨rect0, Primitive.mesh meshA⟩] ++ [⟨rect0, Primitive.mesh meshB⟩])).1.commands ∧
    (UI.upload_to_buffers scenarioPool 800 600
      ([⟨rect0, Primitive.mesh meshA⟩] ++ ⟨rect0, Primitive.mesh meshC⟩ ::
        [⟨rect0, Primitive.mesh meshB⟩])).2 =
      (UI.upload_to_buffers scenarioPool 800 600
        ([⟨rect0, Primitive.mesh meshA⟩] ++ [⟨rect0, Primitive.mesh meshB⟩])).2 ∧
    (UI.upload_to_buffers scenarioPool 800 600
      ([⟨rect0, Primitive.mesh meshA⟩] ++ ⟨rect0, Primitive.mesh meshC⟩ ::
        [⟨rect0, Primitive.mesh meshB⟩])).1.warnings =
      (UI.upload_to_buffers scenarioPool 800 600 [⟨rect0, Primitive.mesh meshA⟩]).1.warnings ++
        Warning.unknownTexture meshC.texture_id ::
          (UI.upload_to_buffers scenarioPool 800 600 [⟨rect0, Primitive.mesh meshB⟩]).1.warnings := by
  have hreg : meshC.texture_id ∉ scenarioPool.infos.map Prod.fst := by decide
  have h := unknown_texture_skips_mesh scenarioPool 800 600 [⟨rect0, Primitive.mesh meshA⟩]
    [⟨rect0, Primitive.mesh meshB⟩] rect0 meshC hreg
  exact ⟨hreg, h.1, h.2.2.2.1, h.2.2.2.2.1, h.2.2.2.2.2⟩

/-- C7 witness: existing records of the scenario pool are stable under
further `fetch_or_add` and size-respecting `insert` calls. -/
theorem atlas_records_stable_witness :
    scenarioPool.fetch (TextureId.user 0) = some infoA ∧
    scenarioPool.fetch (TextureId.user scenarioPool.next_layer.toNat) = none ∧
    scenarioPool.fetch_or_add (TextureId.user 0) 3 3 = (scenarioPool, infoA) ∧
    ((scenarioPool.fetch_or_add (TextureId.managed 7) 4 4).1).fetch (TextureId.user 0) =
      some infoA ∧
    TexturePool.fetch
      ⟨[(TextureId.user 0, infoA), (TextureId.user 1, infoB), (TextureId.user 2, ⟨2, 4, 4⟩)],
        16, 16, 5, 3⟩ (TextureId.user 0) = some infoA := by
  have h := atlas_records_stable scenarioPool (TextureId.user 0) infoA (by decide) (by decide)
  exact ⟨by decide, by decide, h.1 3 3, h.2.1 (TextureId.managed 7) 4 4,
    h.2.2 4 4 []
      ⟨[(TextureId.user 0, infoA), (TextureId.user 1, infoB),
        (TextureId.user 2, ⟨2, 4, 4⟩)], 16, 16, 5, 3⟩
      ⟨TextureId.user 2, 4, 4⟩ (by decide)⟩

/-- C8 witness: 16384 by 256 gives 15 layers; 16 by 16 gives 5. -/
theorem atlas_capacity_formula_witness :
    (∃ p, TexturePool.new 16384 256 = some p ∧ p.max_depth = 15) ∧
    (∃ p, TexturePool.new 16 16 = some p ∧ p.max_depth = 5) := by
  obtain ⟨p, hp, hd, -, -, -⟩ := atlas_capacity_formula 16384 256 (by norm_num) (by norm_num)
  obtain ⟨q, hq, hd2, -, -, -⟩ := atlas_capacity_formula 16 16 (by norm_num) (by norm_num)
  have e1 : Nat.log2 (max 16384 256) = 14 := by rw [← floorLog2_eq_log2]; decide
  have e2 : Nat.log2 (max 16 16) = 4 := by rw [← floorLog2_eq_log2]; decide
  exact ⟨⟨p, hp, by rw [hd, e1]; norm_num⟩, ⟨q, hq, by rw [hd2, e2]; norm_num⟩⟩

/-- C9 witness: a 2 by 2 delta with 3 pixels is logged and written
anyway, with the record created as for a well-formed delta. -/
theorem texture_delta_mismatch_nonfatal_witness :
    (([7, 7, 7] : List Nat).length ≠ 2 * 2) ∧
    (UI.update_texture pool16 (TextureId.managed 0) ⟨none, 2, 2, [7, 7, 7]⟩).2.1 =
      [Warning.lenMismatch 3 2 2] ∧
    (UI.update_texture pool16 (TextureId.managed 0) ⟨none, 2, 2, [7, 7, 7]⟩).2.2 =
      [⟨0, 0, 0, 2, 2, [7, 7, 7]⟩] ∧
    (UI.update_texture pool16 (TextureId.managed 0) ⟨none, 2, 2, [7, 7, 7]⟩).1 =
      (pool16.fetch_or_add (TextureId.managed 0) 2 2).1 := by
  have h := texture_delta_mismatch_nonfatal pool16 (TextureId.managed 0)
    ⟨none, 2, 2, [7, 7, 7]⟩ (by decide)
  exact ⟨by decide, h.1, h.2.1, h.2.2.1⟩

/-- C10 witness: registering a new handle on the scenario pool keeps
the invariant and grows `next_layer`. -/
theorem atlas_ops_preserve_inv_witness :
    AtlasInv scenarioPool ∧
    scenarioPool.applyOp (AtlasOp.resolveOrCreate (TextureId.managed 7) 4 4) =
      some (scenarioPool.fetch_or_add (TextureId.managed 7) 4 4).1 ∧
    scenarioPool.next_layer ≤ (scenarioPool.fetch_or_add (TextureId.managed 7) 4 4).1.next_layer ∧
    AtlasInv (scenarioPool.fetch_or_add (TextureId.managed 7) 4 4).1 := by
  have h := atlas_ops_preserve_inv scenarioPool
    (scenarioPool.fetch_or_add (TextureId.managed 7) 4 4).1
    (AtlasOp.resolveOrCreate (TextureId.managed 7) 4 4) (by decide) rfl
  exact ⟨by decide, rfl, h.1, h.2⟩

end EguiMdi
